import Mathlib

/-!
Shallow embedding, in Lean 4, of the binding core, error model and REPL
dispatch of the pikelet repository (files `src/var.rs`,
`src/semantics/errors.rs`, `src/cli/repl.rs`), together with theorems
settling the specification's claims about them.

Rust `u32` counters are modelled as `Nat` with explicit reduction modulo
`2 ^ 32` wherever the source increments them.  Rust's in-place mutation
(`&mut self`) is modelled by returning the new value.
-/

namespace Pikelet

/-- A generated id (`GenId(u32)` in `src/var.rs`). -/
structure GenId where
  id : Nat
deriving DecidableEq, Repr

/-- The name of a free variable (`enum Name` in `src/var.rs`). -/
inductive Name where
  | User : String → Name
  | Gen : GenId → Name
  | Abstract : Name
deriving DecidableEq, Repr

/-- Rust `impl PartialEq for Name` (`src/var.rs` lines 108-115): user names
compare by their strings; every other pair of names — `Gen`/`Gen`,
`Abstract`/`Abstract` and all mixed pairs — compares unequal. -/
def Name.beq : Name → Name → Bool
  | Name.User lhs, Name.User rhs => lhs == rhs
  | _, _ => false

/-- Rust `impl fmt::Display for GenId`: `"${}"`. -/
def GenId.display (g : GenId) : String := "$" ++ toString g.id

/-- Rust `impl fmt::Display for Name`. -/
def Name.display : Name → String
  | Name.User name => name
  | Name.Gen id => id.display
  | Name.Abstract => "_"

/-- The de Bruijn index of the binder that introduced the variable
(`struct Debruijn(pub u32)` in `src/var.rs`).  The wrapped `u32` is a `Nat`;
`succ` reduces modulo `2 ^ 32` as a Rust `u32` increment would. -/
structure Debruijn where
  val : Nat
deriving DecidableEq, Repr

/-- `Debruijn::ZERO`: the index of the current binder. -/
def Debruijn.ZERO : Debruijn := ⟨0⟩

/-- `Debruijn::succ`: move the index into an inner binder (`u32` addition). -/
def Debruijn.succ (d : Debruijn) : Debruijn := ⟨(d.val + 1) % 2 ^ 32⟩

/-- `Debruijn::pred`: decrement, failing at zero. -/
def Debruijn.pred (d : Debruijn) : Option Debruijn :=
  match d with
  | ⟨0⟩ => none
  | ⟨i + 1⟩ => some ⟨i⟩

/-- Rust `impl fmt::Display for Debruijn`. -/
def Debruijn.display (d : Debruijn) : String := toString d.val

/-- A value annotated with a name for debugging purposes
(`struct Named<T>(pub Name, pub T)` in `src/var.rs`). -/
structure Named (T : Type) where
  name : Name
  val : T
deriving Repr

/-- Rust `impl<T: PartialEq> PartialEq for Named<T>` (`src/var.rs` lines
159-163): compare only the second component, ignoring the name. -/
def Named.beq {T : Type} [BEq T] (a b : Named T) : Bool := a.val == b.val

/-- Modelled from the spec: the `Hash` implementation for `Named<T>` is not
among the repository files under `src/`; the spec states that "equality and
hashing ignore the name and compare only `T`", so the hash of a `Named` value
is the hash of its second component alone, for any hash function on `T`. -/
def Named.hashBy {T : Type} (hashT : T → Nat) (a : Named T) : Nat := hashT a.val

/-- The `LocallyNameless` trait of `src/var.rs`: terms that can capture free
variables.  The Rust method mutates `self`; here `close` returns the new
value. -/
class LocallyNameless (α : Type) where
  close : α → (Name → Option Debruijn) → α

/-- The trait's provided method `close0` (`src/var.rs` lines 47-53): capture
the single name `name` at level `Debruijn::ZERO`, using the `Name` equality
of `impl PartialEq for Name`. -/
def LocallyNameless.close0 {α : Type} [LocallyNameless α] (a : α) (name : Name) : α :=
  LocallyNameless.close a fun found =>
    if Name.beq name found then some Debruijn.ZERO else none

/-- The `Pattern` trait of `src/var.rs`: locally nameless patterns. -/
class Pattern (α : Type) extends LocallyNameless α where
  handle_free : α → Debruijn → Name → Option Debruijn

/-- `impl LocallyNameless for ()`. -/
instance : LocallyNameless Unit where
  close a _ := a

/-- `impl<T: LocallyNameless> LocallyNameless for Option<T>`. -/
instance {T : Type} [LocallyNameless T] : LocallyNameless (Option T) where
  close a on_free :=
    match a with
    | none => none
    | some x => some (LocallyNameless.close x on_free)

/-- `impl<T: LocallyNameless> LocallyNameless for Named<T>`: close the value,
keep the name. -/
instance {T : Type} [LocallyNameless T] : LocallyNameless (Named T) where
  close a on_free := ⟨a.name, LocallyNameless.close a.val on_free⟩

/-- `impl<T: LocallyNameless> Pattern for Named<T>` (`src/var.rs` lines
171-179): the pattern introduces its own name at the given level. -/
instance {T : Type} [LocallyNameless T] : Pattern (Named T) where
  handle_free a level name := if Name.beq a.name name then some level else none

/-- A variable, free or bound (`enum Var` in `src/var.rs`). -/
inductive Var where
  | Free : Name → Var
  | Bound : Named Debruijn → Var
deriving Repr

/-- `impl LocallyNameless for Var` (`src/var.rs` lines 226-236): a bound
variable is left alone; a free variable is replaced by a bound one exactly
when `on_free` yields a level. -/
def Var.close (v : Var) (on_free : Name → Option Debruijn) : Var :=
  match v with
  | Var.Bound b => Var.Bound b
  | Var.Free name =>
    match on_free name with
    | none => Var.Free name
    | some level => Var.Bound ⟨name, level⟩

instance : LocallyNameless Var := ⟨Var.close⟩

/-- `Var::open` (`src/var.rs` lines 238-245): true iff this is a `Bound`
variable whose index equals `level`. -/
def Var.openAt (v : Var) (level : Debruijn) : Bool :=
  match v with
  | Var.Bound ⟨_, b⟩ => b = level
  | Var.Free _ => false

/-- Modelled from the spec: the opening/substitution step of the normalizer
(in the `semantics` module) is not among the repository files under `src/`;
per the spec, opening "replace[s] matching `Bound(0)` with" the substituted
term.  At the level of a single variable, opening at level 0 with the
replacement `r` substitutes `r` exactly when `Var::open(Debruijn::ZERO)`
holds. -/
def Var.open0With (v r : Var) : Var :=
  if v.openAt Debruijn.ZERO then r else v

/-- A scope (`struct Scope<P, T>` in `src/var.rs`).  The source's field names
are `unsafe_param` and `unsafe_body`. -/
structure Scope (P T : Type) where
  param : P
  body : T
deriving Repr

/-- `Scope::bind` (`src/var.rs` lines 262-270): close the body over the names
the pattern introduces, at level `Debruijn::ZERO`. -/
def Scope.bind {P T : Type} [Pattern P] [LocallyNameless T] (param : P) (body : T) :
    Scope P T :=
  ⟨param, LocallyNameless.close body fun found => Pattern.handle_free param Debruijn.ZERO found⟩

/-- `impl<P: Pattern, T: LocallyNameless> LocallyNameless for Scope<P, T>`
(`src/var.rs` lines 272-278): close the pattern as-is and the body with every
target level bumped by `Debruijn::succ`. -/
def Scope.close {P T : Type} [Pattern P] [LocallyNameless T] (s : Scope P T)
    (on_free : Name → Option Debruijn) : Scope P T :=
  ⟨LocallyNameless.close s.param on_free,
   LocallyNameless.close s.body fun name => (on_free name).map Debruijn.succ⟩

instance {P T : Type} [Pattern P] [LocallyNameless T] : LocallyNameless (Scope P T) :=
  ⟨Scope.close⟩

/-- The fresh name generator (`struct FreshGen` in `src/var.rs`).  The source
field is `next_gen: u32`, modelled as a `Nat` kept below `2 ^ 32`. -/
structure FreshGen where
  next_gen : Nat
deriving DecidableEq, Repr

/-- `FreshGen::new`: the counter starts at 0. -/
def FreshGen.new : FreshGen := ⟨0⟩

/-- `FreshGen::next_gen` (`src/var.rs` lines 136-140): return the current
counter as a `GenId` and increment it; the counter is a Rust `u32`, so the
increment wraps modulo `2 ^ 32`. -/
def FreshGen.nextGen (g : FreshGen) : GenId × FreshGen :=
  (⟨g.next_gen⟩, ⟨(g.next_gen + 1) % 2 ^ 32⟩)

/-- The generator state after `k` calls to `next_gen`, starting from
`FreshGen::new`. -/
def FreshGen.stateAfter : Nat → FreshGen
  | 0 => FreshGen.new
  | k + 1 => (FreshGen.nextGen (FreshGen.stateAfter k)).2

/-- The `GenId` returned by the `(k + 1)`-th call to `next_gen` (so `k` is
zero-indexed). -/
def FreshGen.nthGenId (k : Nat) : GenId := (FreshGen.nextGen (FreshGen.stateAfter k)).1

/-! Error model, from `src/semantics/errors.rs`.  `ByteSpan` comes from the
external `codespan` crate (a pair of byte indices); `Diagnostic` and its
builders come from the external `codespan_reporting` crate (severity, a
message, one optional primary label and a list of secondary labels — the
fields actually exercised by `errors.rs`). -/

/-- A span of bytes in a source file (the external `codespan::ByteSpan`). -/
structure ByteSpan where
  start : Nat
  stop : Nat
deriving DecidableEq, Repr

/-- Diagnostic severity (the external `codespan_reporting` crate):
`Diagnostic::new_bug` produces `Bug`, `Diagnostic::new_error` produces
`Error`. -/
inductive Severity where
  | Bug
  | Error
deriving DecidableEq, Repr

/-- A diagnostic record (the external `codespan_reporting::Diagnostic`,
restricted to the fields `errors.rs` builds). -/
structure Diagnostic where
  severity : Severity
  message : String
  primary : Option (ByteSpan × String)
  secondary : List (ByteSpan × String)
deriving DecidableEq, Repr

/-- `Diagnostic::new_bug`. -/
def Diagnostic.new_bug (message : String) : Diagnostic :=
  ⟨Severity.Bug, message, none, []⟩

/-- `Diagnostic::new_error`. -/
def Diagnostic.new_error (message : String) : Diagnostic :=
  ⟨Severity.Error, message, none, []⟩

/-- `Diagnostic::with_primary_label`. -/
def Diagnostic.with_primary_label (d : Diagnostic) (span : ByteSpan) (label : String) :
    Diagnostic :=
  { d with primary := some (span, label) }

/-- `Diagnostic::with_secondary_label`. -/
def Diagnostic.with_secondary_label (d : Diagnostic) (span : ByteSpan) (label : String) :
    Diagnostic :=
  { d with secondary := d.secondary ++ [(span, label)] }

/-- Modelled from the spec: `RcType` is defined in `syntax::core`, which is
not among the repository files under `src/`; the diagnostics of `errors.rs`
only use its `Display` rendering, so it is modelled by that rendered
string. -/
structure RcType where
  display : String
deriving DecidableEq, Repr

/-- An internal error — a bug in the engine (`enum InternalError` in
`src/semantics/errors.rs`). -/
inductive InternalError where
  | UnsubstitutedDebruijnIndex (span : ByteSpan) (name : Name) (index : Debruijn)
  | UndefinedName (var_span : ByteSpan) (name : Name)
deriving DecidableEq, Repr

/-- `InternalError::span`. -/
def InternalError.span : InternalError → ByteSpan
  | InternalError.UnsubstitutedDebruijnIndex span _ _ => span
  | InternalError.UndefinedName var_span _ => var_span

/-- `InternalError::to_diagnostic` (`src/semantics/errors.rs` lines 31-45):
both variants render with bug severity and a primary label at their span. -/
def InternalError.to_diagnostic : InternalError → Diagnostic
  | InternalError.UnsubstitutedDebruijnIndex span name index =>
    (Diagnostic.new_bug
        ("unsubstituted debruijn index: `" ++ name.display ++ index.display ++ "`")).with_primary_label
      span "index found here"
  | InternalError.UndefinedName var_span name =>
    (Diagnostic.new_bug
        ("cannot find `" ++ name.display ++ "` in scope")).with_primary_label
      var_span "not found in this scope"

/-- An error produced during typechecking (`enum TypeError` in
`src/semantics/errors.rs`). -/
inductive TypeError where
  | NotAFunctionType (fn_span : ByteSpan) (arg_span : ByteSpan) (found : RcType)
  | FunctionParamNeedsAnnotation (param_span : ByteSpan) (var_span : Option ByteSpan)
      (name : Name)
  | Mismatch (span : ByteSpan) (found : RcType) (expected : RcType)
  | UnexpectedFunction (span : ByteSpan) (expected : RcType)
  | ExpectedUniverse (span : ByteSpan) (found : RcType)
  | UndefinedName (var_span : ByteSpan) (name : Name)
  | Internal (err : InternalError)
deriving DecidableEq, Repr

/-- `TypeError::to_diagnostic` (`src/semantics/errors.rs` lines 82-125):
`Internal` delegates to `InternalError::to_diagnostic`; every other variant
builds an ordinary error diagnostic with a primary label at its stored
span. -/
def TypeError.to_diagnostic : TypeError → Diagnostic
  | TypeError.Internal err => err.to_diagnostic
  | TypeError.NotAFunctionType fn_span arg_span found =>
    ((Diagnostic.new_error
          ("applied an argument to a term that was not a function - found type `" ++
            found.display ++ "`")).with_primary_label
        fn_span "the term").with_secondary_label
      arg_span "the applied argument"
  | TypeError.FunctionParamNeedsAnnotation param_span _ name =>
    (Diagnostic.new_error
        ("type annotation needed for the function parameter `" ++ name.display ++ "`")).with_primary_label
      param_span "the parameter that requires an annotation"
  | TypeError.UnexpectedFunction span expected =>
    (Diagnostic.new_error
        ("found a function but expected a term of type `" ++ expected.display ++ "`")).with_primary_label
      span "the function"
  | TypeError.Mismatch span found expected =>
    (Diagnostic.new_error
        ("found a term of type `" ++ found.display ++ "`, but expected a term of type `" ++
          expected.display ++ "`")).with_primary_label
      span "the term"
  | TypeError.ExpectedUniverse span found =>
    (Diagnostic.new_error
        ("expected type, found value `" ++ found.display ++ "`")).with_primary_label
      span "the value"
  | TypeError.UndefinedName var_span name =>
    (Diagnostic.new_error
        ("cannot find `" ++ name.display ++ "` in scope")).with_primary_label
      var_span "not found in this scope"

/-- `impl From<InternalError> for TypeError` (`src/semantics/errors.rs`
lines 128-132). -/
def TypeError.fromInternal (src : InternalError) : TypeError := TypeError.Internal src

/-! REPL dispatch, from `src/cli/repl.rs`.  The parser, the concrete-to-core
translation (`ToCore`), the `semantics` engine and `syntax::core::Context`
are all outside the files under `src/`, so `eval_print` is modelled from the
point where the line has been parsed into a `ReplCommand`, parameterised over
the missing collaborators: `toCore` for the translation, `infer` and
`normalize` for the engine.  Printing is I/O; the function returns the data
the source would print. -/

/-- Modelled from the spec: `syntax::core::Context` is not among the
repository files under `src/`; the spec describes it as an ordered,
append-only sequence of name-to-type bindings. -/
def Context : Type := List (Name × RcType)

/-- `Context::new`: the empty context, built afresh by `eval_print` for every
`Eval` and `TypeOf` command. -/
def Context.new : Context := []

/-- The REPL commands (`enum ReplCommand` in `src/syntax/concrete.rs`),
parameterised over the concrete term type. -/
inductive ReplCommand (CTerm : Type) where
  | Eval : CTerm → ReplCommand CTerm
  | Help : ReplCommand CTerm
  | NoOp : ReplCommand CTerm
  | Quit : ReplCommand CTerm
  | TypeOf : CTerm → ReplCommand CTerm
  | Error : ByteSpan → ReplCommand CTerm

/-- `enum ControlFlow` in `src/cli/repl.rs`. -/
inductive ControlFlow where
  | Break
  | Continue
deriving DecidableEq, Repr

/-- `enum EvalPrintError` in `src/cli/repl.rs`, parameterised over the parse
error type (parsing is an external collaborator).  The source constructor
named `Type` is spelled `TypeErr` here, `Type` being a Lean keyword. -/
inductive EvalPrintError (P : Type) where
  | Parse : List P → EvalPrintError P
  | TypeErr : TypeError → EvalPrintError P

/-- What an `eval_print` branch prints on success: the help text, the
normalized value annotated with its inferred type (`Eval`), the inferred type
alone (`TypeOf`), or nothing. -/
inductive ReplOutput (Term : Type) where
  | Help : ReplOutput Term
  | EvalResult : Term → RcType → ReplOutput Term
  | TypeOfResult : RcType → ReplOutput Term
  | Nothing : ReplOutput Term

/-- `eval_print` (`src/cli/repl.rs` lines 111-156) from the parsed
`ReplCommand` onward.  On `Eval`, a fresh empty context is created, `infer`
runs first and its error propagates via `?` before `normalize` is ever
consulted; on success `normalize` runs on the same term in the same fresh
context.  `TypeOf` likewise elaborates in a fresh empty context and never
normalizes. -/
def eval_print {CTerm Term P : Type} (toCore : CTerm → Term)
    (infer : Context → Term → Except TypeError (Term × RcType))
    (normalize : Context → Term → Except TypeError Term) :
    ReplCommand CTerm → Except (EvalPrintError P) (ControlFlow × ReplOutput Term)
  | ReplCommand.Help => Except.ok (ControlFlow.Continue, ReplOutput.Help)
  | ReplCommand.Eval parse_term =>
    let term := toCore parse_term
    let context := Context.new
    match infer context term with
    | Except.error err => Except.error (EvalPrintError.TypeErr err)
    | Except.ok (_, inferred) =>
      match normalize context term with
      | Except.error err => Except.error (EvalPrintError.TypeErr err)
      | Except.ok evaluated =>
        Except.ok (ControlFlow.Continue, ReplOutput.EvalResult evaluated inferred)
  | ReplCommand.TypeOf parse_term =>
    let term := toCore parse_term
    let context := Context.new
    match infer context term with
    | Except.error err => Except.error (EvalPrintError.TypeErr err)
    | Except.ok (_, inferred) =>
      Except.ok (ControlFlow.Continue, ReplOutput.TypeOfResult inferred)
  | ReplCommand.NoOp => Except.ok (ControlFlow.Continue, ReplOutput.Nothing)
  | ReplCommand.Error _ => Except.ok (ControlFlow.Continue, ReplOutput.Nothing)
  | ReplCommand.Quit => Except.ok (ControlFlow.Break, ReplOutput.Nothing)

end Pikelet

namespace Pikelet

/-! Small unfolding lemmas for the typeclass instances, shared by the claim
theorems below. -/

theorem close_unit (f : Name → Option Debruijn) : LocallyNameless.close () f = () := rfl

theorem close_named {T : Type} [LocallyNameless T] (a : Named T) (f : Name → Option Debruijn) :
    LocallyNameless.close a f = ⟨a.name, LocallyNameless.close a.val f⟩ := rfl

theorem close_var (v : Var) (f : Name → Option Debruijn) :
    LocallyNameless.close v f = Var.close v f := rfl

theorem close_scope {P T : Type} [Pattern P] [LocallyNameless T] (s : Scope P T)
    (f : Name → Option Debruijn) : LocallyNameless.close s f = Scope.close s f := rfl

theorem handle_free_named {T : Type} [LocallyNameless T] (a : Named T) (level : Debruijn)
    (name : Name) :
    Pattern.handle_free a level name = if Name.beq a.name name then some level else none := rfl

theorem name_beq_user_user (s t : String) :
    Name.beq (Name.User s) (Name.User t) = (s == t) := rfl

/-- C1: `Var`'s `close(on_free)` replaces a `Free(name)` variable with
`Bound(Named(name, level))` exactly when `on_free(name)` returns
`Some(level)`, leaves a `Free(name)` variable unchanged when `on_free(name)`
returns `None`, and leaves every `Bound` variable unchanged; `close` is a
total function, so it never fails. -/
theorem claim_C1 (on_free : Name → Option Debruijn) :
    (∀ (name : Name) (level : Debruijn), on_free name = some level →
      LocallyNameless.close (Var.Free name) on_free = Var.Bound ⟨name, level⟩)
  ∧ (∀ name : Name, on_free name = none →
      LocallyNameless.close (Var.Free name) on_free = Var.Free name)
  ∧ (∀ b : Named Debruijn, LocallyNameless.close (Var.Bound b) on_free = Var.Bound b) := by
  refine ⟨fun name level h => ?_, fun name h => ?_, fun b => rfl⟩ <;>
    simp [close_var, Var.close, h]

theorem claim_C1_witness :
    LocallyNameless.close (Var.Free (Name.User "x")) (fun _ => some ⟨3⟩)
      = Var.Bound ⟨Name.User "x", ⟨3⟩⟩ :=
  (claim_C1 fun _ => some ⟨3⟩).1 (Name.User "x") ⟨3⟩ rfl

/-- C2: `Scope::bind(pattern, body)` closes `body` over the pattern's name at
level 0; closing a `Scope` closes its body with `on_free` composed with
`Debruijn::succ`; hence in `λx. λy. x` (nested scopes over distinct user
names) the inner occurrence of `x` ends up `Bound` at level 1, not 0. -/
theorem claim_C2 (x y : String) (h : x ≠ y) :
    (Scope.bind (Named.mk (Name.User x) ()) (Var.Free (Name.User x))).body
        = Var.Bound ⟨Name.User x, Debruijn.ZERO⟩
  ∧ (∀ (s : Scope (Named Unit) Var) (f : Name → Option Debruijn),
      (LocallyNameless.close s f).body
        = LocallyNameless.close s.body fun n => (f n).map Debruijn.succ)
  ∧ Scope.bind (Named.mk (Name.User x) ())
        (Scope.bind (Named.mk (Name.User y) ()) (Var.Free (Name.User x)))
      = ⟨Named.mk (Name.User x) (),
         ⟨Named.mk (Name.User y) (), Var.Bound ⟨Name.User x, ⟨1⟩⟩⟩⟩ := by
  have hxx : (x == x) = true := beq_self_eq_true x
  have hxy : (x == y) = false := beq_eq_false_iff_ne.mpr h
  have hyx : (y == x) = false := beq_eq_false_iff_ne.mpr (Ne.symm h)
  refine ⟨?_, fun s f => rfl, ?_⟩
  · simp [Scope.bind, close_var, Var.close, handle_free_named, name_beq_user_user, hxx]
  · simp [Scope.bind, close_scope, Scope.close, close_var, close_named, close_unit,
      Var.close, handle_free_named, name_beq_user_user, hxx, hxy, hyx,
      Debruijn.succ, Debruijn.ZERO]

theorem claim_C2_witness :
    Scope.bind (Named.mk (Name.User "x") ())
        (Scope.bind (Named.mk (Name.User "y") ()) (Var.Free (Name.User "x")))
      = ⟨Named.mk (Name.User "x") (),
         ⟨Named.mk (Name.User "y") (), Var.Bound ⟨Name.User "x", ⟨1⟩⟩⟩⟩ :=
  (claim_C2 "x" "y" (by decide)).2.2

/-- C3: comparing two `Abstract` names returns `false`, even comparing
`Abstract` with itself, while two `User` names are equal exactly when their
strings are equal. -/
theorem claim_C3 :
    Name.beq Name.Abstract Name.Abstract = false
  ∧ ∀ s t : String, Name.beq (Name.User s) (Name.User t) = true ↔ s = t :=
  ⟨rfl, fun s t => by simp [Name.beq]⟩

theorem claim_C3_witness : Name.beq (Name.User "a") (Name.User "a") = true :=
  (claim_C3.2 "a" "a").mpr rfl

/-- C4: equality of `Named<T>` ignores the name — `Named(n1, t1)` equals
`Named(n2, t2)` iff `t1` equals `t2`, for any names `n1`, `n2` — and the
hash of a `Named` value (modelled from the spec) likewise does not depend on
the name. -/
theorem claim_C4 {T : Type} [BEq T] [LawfulBEq T] (n1 n2 : Name) (t1 t2 : T)
    (hashT : T → Nat) :
    (Named.beq (Named.mk n1 t1) (Named.mk n2 t2) = true ↔ t1 = t2)
  ∧ Named.hashBy hashT (Named.mk n1 t1) = Named.hashBy hashT (Named.mk n2 t1) :=
  ⟨by simp [Named.beq], rfl⟩

theorem claim_C4_witness :
    Named.beq (Named.mk Name.Abstract (3 : Nat)) (Named.mk (Name.User "z") 3) = true :=
  (claim_C4 Name.Abstract (Name.User "z") 3 3 id).1.mpr rfl

/-- C5: `Var::open(level)` is `true` iff the variable is `Bound` with index
equal to `level`; it is `false` on every `Free` variable and on every `Bound`
variable at a different level. -/
theorem claim_C5 :
    (∀ (n : Name) (b level : Debruijn), (Var.Bound ⟨n, b⟩).openAt level = true ↔ b = level)
  ∧ ∀ (n : Name) (level : Debruijn), (Var.Free n).openAt level = false :=
  ⟨fun n b level => by simp [Var.openAt], fun n level => rfl⟩

theorem claim_C5_witness : (Var.Bound ⟨Name.Abstract, ⟨0⟩⟩).openAt ⟨0⟩ = true :=
  (claim_C5.1 Name.Abstract ⟨0⟩ ⟨0⟩).mpr rfl

/-- C6 as stated is false: `Name` equality is never reflexive on `Abstract`
(or `Gen`) names, so `Free(Abstract).close0(Abstract)` captures nothing — the
variable stays `Free` and is not bound at level 0. -/
theorem claim_C6_counterexample :
    LocallyNameless.close0 (Var.Free Name.Abstract) Name.Abstract = Var.Free Name.Abstract
  ∧ (LocallyNameless.close0 (Var.Free Name.Abstract) Name.Abstract).openAt Debruijn.ZERO
      = false :=
  ⟨rfl, rfl⟩

/-- C6 amended: for every free *User* name, `close0` over that name turns the
occurrence into a variable bound at level 0 that still carries the name, and
opening it (at level 0) with a term referencing the same name reproduces the
original free occurrence. -/
theorem claim_C6 (s : String) :
    LocallyNameless.close0 (Var.Free (Name.User s)) (Name.User s)
        = Var.Bound ⟨Name.User s, Debruijn.ZERO⟩
  ∧ (LocallyNameless.close0 (Var.Free (Name.User s)) (Name.User s)).openAt Debruijn.ZERO
      = true
  ∧ Var.open0With (LocallyNameless.close0 (Var.Free (Name.User s)) (Name.User s))
        (Var.Free (Name.User s))
      = Var.Free (Name.User s) := by
  have hb : LocallyNameless.close0 (Var.Free (Name.User s)) (Name.User s)
      = Var.Bound ⟨Name.User s, Debruijn.ZERO⟩ := by
    simp [LocallyNameless.close0, close_var, Var.close, name_beq_user_user]
  refine ⟨hb, ?_, ?_⟩ <;> rw [hb] <;> rfl

theorem claim_C6_witness :
    LocallyNameless.close0 (Var.Free (Name.User "n")) (Name.User "n")
      = Var.Bound ⟨Name.User "n", Debruijn.ZERO⟩ :=
  (claim_C6 "n").1

/-- The generator counter after `k` calls equals `k` reduced modulo `2^32`
(the Rust counter is a `u32`). -/
theorem freshGen_stateAfter_eq (k : Nat) : FreshGen.stateAfter k = ⟨k % 2 ^ 32⟩ := by
  induction k with
  | zero => rfl
  | succ k ih => simp [FreshGen.stateAfter, FreshGen.nextGen, ih, Nat.mod_add_mod]

/-- The id returned by the `(k+1)`-th call is `k % 2^32`. -/
theorem freshGen_nthGenId_eq (k : Nat) : FreshGen.nthGenId k = ⟨k % 2 ^ 32⟩ := by
  simp [FreshGen.nthGenId, FreshGen.nextGen, freshGen_stateAfter_eq]

/-- C7 as stated is false: the counter is a `u32` and wraps, so the
`(2^32 + 1)`-th call returns `GenId(0)` again — equal to the first call's id,
not strictly greater than every previously returned id. -/
theorem claim_C7_counterexample :
    FreshGen.nthGenId (2 ^ 32) = FreshGen.nthGenId 0 ∧ FreshGen.nthGenId 0 = ⟨0⟩ := by
  rw [freshGen_nthGenId_eq, freshGen_nthGenId_eq]
  norm_num

/-- C7 amended: the `k`-th call (counting from 1) returns
`GenId((k-1) mod 2^32)`, and within the first `2^32` calls the returned ids
are strictly increasing starting at 0. -/
theorem claim_C7 :
    (∀ k : Nat, FreshGen.nthGenId k = ⟨k % 2 ^ 32⟩)
  ∧ ∀ j k : Nat, j < k → k < 2 ^ 32 →
      (FreshGen.nthGenId j).id < (FreshGen.nthGenId k).id := by
  refine ⟨freshGen_nthGenId_eq, fun j k hjk hk => ?_⟩
  rw [freshGen_nthGenId_eq, freshGen_nthGenId_eq]
  show j % 2 ^ 32 < k % 2 ^ 32
  rw [Nat.mod_eq_of_lt (lt_trans hjk hk), Nat.mod_eq_of_lt hk]
  exact hjk

theorem claim_C7_witness : (FreshGen.nthGenId 0).id < (FreshGen.nthGenId 1).id :=
  claim_C7.2 0 1 (by decide) (by norm_num)

end Pikelet

namespace Pikelet

/-- C8: every `InternalError` converts via `From` into `TypeError::Internal`
carrying the original error unchanged, whose diagnostic delegates to
`InternalError::to_diagnostic` and has bug severity; each of the six
user-facing `TypeError` variants renders with ordinary error severity and a
primary label at its stored span. -/
theorem claim_C8 :
    (∀ err : InternalError,
      TypeError.fromInternal err = TypeError.Internal err
      ∧ (TypeError.Internal err).to_diagnostic = err.to_diagnostic
      ∧ err.to_diagnostic.severity = Severity.Bug)
  ∧ (∀ (fn_span arg_span : ByteSpan) (found : RcType),
      (TypeError.NotAFunctionType fn_span arg_span found).to_diagnostic.severity
          = Severity.Error
      ∧ ((TypeError.NotAFunctionType fn_span arg_span found).to_diagnostic.primary.map
            Prod.fst) = some fn_span)
  ∧ (∀ (param_span : ByteSpan) (var_span : Option ByteSpan) (name : Name),
      (TypeError.FunctionParamNeedsAnnotation param_span var_span name).to_diagnostic.severity
          = Severity.Error
      ∧ ((TypeError.FunctionParamNeedsAnnotation param_span var_span
              name).to_diagnostic.primary.map Prod.fst) = some param_span)
  ∧ (∀ (span : ByteSpan) (found expected : RcType),
      (TypeError.Mismatch span found expected).to_diagnostic.severity = Severity.Error
      ∧ ((TypeError.Mismatch span found expected).to_diagnostic.primary.map Prod.fst)
          = some span)
  ∧ (∀ (span : ByteSpan) (expected : RcType),
      (TypeError.UnexpectedFunction span expected).to_diagnostic.severity = Severity.Error
      ∧ ((TypeError.UnexpectedFunction span expected).to_diagnostic.primary.map Prod.fst)
          = some span)
  ∧ (∀ (span : ByteSpan) (found : RcType),
      (TypeError.ExpectedUniverse span found).to_diagnostic.severity = Severity.Error
      ∧ ((TypeError.ExpectedUniverse span found).to_diagnostic.primary.map Prod.fst)
          = some span)
  ∧ ∀ (var_span : ByteSpan) (name : Name),
      (TypeError.UndefinedName var_span name).to_diagnostic.severity = Severity.Error
      ∧ ((TypeError.UndefinedName var_span name).to_diagnostic.primary.map Prod.fst)
          = some var_span := by
  refine ⟨fun err => ⟨rfl, rfl, ?_⟩, fun _ _ _ => ⟨rfl, rfl⟩, fun _ _ _ => ⟨rfl, rfl⟩,
    fun _ _ _ => ⟨rfl, rfl⟩, fun _ _ => ⟨rfl, rfl⟩, fun _ _ => ⟨rfl, rfl⟩,
    fun _ _ => ⟨rfl, rfl⟩⟩
  cases err <;> rfl

/-- C9: two `Gen` names never compare equal, even wrapping the identical
`GenId`; `Name` equality holds only between `User` names with equal strings;
consequently `close0` with a `Gen` or `Abstract` name captures nothing and is
the identity on every variable. -/
theorem claim_C9 :
    (∀ i j : GenId, Name.beq (Name.Gen i) (Name.Gen j) = false)
  ∧ (∀ a b : Name, Name.beq a b = true ↔ ∃ s, a = Name.User s ∧ b = Name.User s)
  ∧ (∀ (i : GenId) (v : Var), LocallyNameless.close0 v (Name.Gen i) = v)
  ∧ ∀ v : Var, LocallyNameless.close0 v Name.Abstract = v := by
  refine ⟨fun i j => rfl, fun a b => ?_, fun i v => ?_, fun v => ?_⟩
  · cases a <;> cases b <;> simp [Name.beq]
    exact ⟨Eq.symm, Eq.symm⟩
  · cases v with
    | Bound b => rfl
    | Free name => cases name <;> rfl
  · cases v with
    | Bound b => rfl
    | Free name => cases name <;> rfl

theorem claim_C9_witness : Name.beq (Name.User "a") (Name.User "a") = true ∧
    LocallyNameless.close0 (Var.Free (Name.User "a")) (Name.Gen ⟨7⟩)
      = Var.Free (Name.User "a") :=
  ⟨(claim_C9.2.1 (Name.User "a") (Name.User "a")).mpr ⟨"a", rfl, rfl⟩,
   claim_C9.2.2.1 ⟨7⟩ (Var.Free (Name.User "a"))⟩

/-- C10: every REPL `Eval` and `TypeOf` command elaborates its term in a
freshly created empty `Context`, and on the `Eval` path `normalize` is
consulted only after `infer` has returned successfully: if inference fails,
`eval_print` returns that error, for any normalizer whatsoever. -/
theorem claim_C10 {CTerm Term P : Type} (toCore : CTerm → Term)
    (infer : Context → Term → Except TypeError (Term × RcType))
    (normalize₁ normalize₂ : Context → Term → Except TypeError Term)
    (t : CTerm) :
    Context.new = ([] : List (Name × RcType))
  ∧ (∀ err : TypeError, infer Context.new (toCore t) = Except.error err →
      eval_print (P := P) toCore infer normalize₁ (ReplCommand.Eval t)
          = Except.error (EvalPrintError.TypeErr err)
      ∧ eval_print (P := P) toCore infer normalize₁ (ReplCommand.Eval t)
          = eval_print (P := P) toCore infer normalize₂ (ReplCommand.Eval t)
      ∧ eval_print (P := P) toCore infer normalize₁ (ReplCommand.TypeOf t)
          = Except.error (EvalPrintError.TypeErr err))
  ∧ (∀ (tm : Term) (ty : RcType) (v : Term),
      infer Context.new (toCore t) = Except.ok (tm, ty) →
      normalize₁ Context.new (toCore t) = Except.ok v →
      eval_print (P := P) toCore infer normalize₁ (ReplCommand.Eval t)
        = Except.ok (ControlFlow.Continue, ReplOutput.EvalResult v ty))
  ∧ ∀ (tm : Term) (ty : RcType),
      infer Context.new (toCore t) = Except.ok (tm, ty) →
      eval_print (P := P) toCore infer normalize₁ (ReplCommand.TypeOf t)
        = Except.ok (ControlFlow.Continue, ReplOutput.TypeOfResult ty) := by
  refine ⟨rfl, fun err h => ?_, fun tm ty v h hn => ?_, fun tm ty h => ?_⟩
  · refine ⟨?_, ?_, ?_⟩ <;> simp [eval_print, h]
  · simp [eval_print, h, hn]
  · simp [eval_print, h]

theorem claim_C10_witness :
    eval_print (P := Unit) (fun u : Unit => u)
        (fun _ _ => Except.error (TypeError.UndefinedName ⟨0, 0⟩ Name.Abstract))
        (fun _ _ => Except.ok ()) (ReplCommand.Eval ())
      = Except.error (EvalPrintError.TypeErr (TypeError.UndefinedName ⟨0, 0⟩ Name.Abstract)) :=
  ((claim_C10 (fun u : Unit => u)
      (fun _ _ => Except.error (TypeError.UndefinedName ⟨0, 0⟩ Name.Abstract))
      (fun _ _ => Except.ok ()) (fun _ _ => Except.ok ()) ()).2.1
    (TypeError.UndefinedName ⟨0, 0⟩ Name.Abstract) rfl).1

end Pikelet
